import Mathlib

/-!
Shallow embedding of the car-search core (`src/search.py`, `src/external_apis.py`)
of the GenAI Capstone repository, together with theorems settling the
specification claims about it.

Numbers: Python floats are modelled as exact rationals (`ℚ`); none of the
properties verified here depends on binary floating-point rounding.
Optional values (`Optional[...]`/missing dict keys) are modelled as `Option`.
-/

namespace CarWise

/-- ASCII lower-casing of one character (all the repo's data is ASCII). -/
def pyCharLower (c : Char) : Char :=
  if 'A' ≤ c ∧ c ≤ 'Z' then Char.ofNat (c.toNat + 32) else c

/-- Python `s.lower()`. -/
def pyLower (s : String) : String := ⟨s.data.map pyCharLower⟩

/-- Executable prefix test on character lists. -/
def isPrefixB : List Char → List Char → Bool
  | [], _ => true
  | _ :: _, [] => false
  | a :: as, b :: bs => a == b && isPrefixB as bs

/-- Executable infix (substring) test on character lists. -/
def isInfixB (needle : List Char) : List Char → Bool
  | [] => isPrefixB needle []
  | hay@(_ :: t) => isPrefixB needle hay || isInfixB needle t

/-- Python `needle in hay` for strings: substring containment. -/
def pyContains (needle hay : String) : Bool :=
  isInfixB needle.data hay.data

/-- Python `s.strip()` / Lean-side trim: drop leading and trailing
whitespace. -/
def pyStrip (s : List Char) : List Char :=
  ((s.dropWhile Char.isWhitespace).reverse.dropWhile Char.isWhitespace).reverse

/-! ## `search.py`: data model -/

/-- `ScoreBreakdown` dataclass (`search.py` lines 12–28). -/
structure ScoreBreakdown where
  price : ℚ
  mileage : ℚ
  distance : ℚ
  economy : ℚ
  safety : ℚ
deriving DecidableEq, Repr

/-- The derived `total` property: the fixed weighted sum of the five
sub-scores (`search.py` lines 20–28). -/
def ScoreBreakdown.total (b : ScoreBreakdown) : ℚ :=
  30/100 * b.price + 25/100 * b.mileage + 15/100 * b.distance
    + 20/100 * b.economy + 10/100 * b.safety

/-- `SearchCriteria` dataclass (`search.py` lines 41–47). All fields optional;
`none` means the criterion is absent. -/
structure SearchCriteria where
  budget : Option ℚ := none
  max_distance : Option ℚ := none
  body_style : Option String := none
  fuel_type : Option String := none
  make : Option String := none
deriving DecidableEq, Repr

/-- A candidate listing dict, restricted to the keys the search engine reads
(`listing.get(...)` calls in `search.py`). A `none` field models a missing or
`None`-valued key. -/
structure Listing where
  id : Option String := none
  vin : Option String := none
  make : Option String := none
  body_style : Option String := none
  fuel_type : Option String := none
  price : Option ℚ := none
  mileage : Option ℚ := none
  distance_miles : Option ℚ := none
  city_mpg : Option ℚ := none
  highway_mpg : Option ℚ := none
  safety_rating : Option ℚ := none
deriving DecidableEq, Repr

/-- `_clamp(x)` with the default bounds `lo=0.0, hi=1.0` (`search.py` lines 50–51);
the repo never passes other bounds. -/
def _clamp (x : ℚ) : ℚ := max 0 (min 1 x)

/-! ## `search.py`: sub-score functions -/

/-- `_price_score` (`search.py` lines 54–67). -/
def _price_score (price budget : Option ℚ) : ℚ :=
  match price, budget with
  | none, _ => 1/2
  | some _, none => 6/10
  | some p, some b =>
    if p ≤ b then
      if p ≥ 7/10 * b then 1
      else 6/10 + 4/10 * (p / (7/10 * b))
    else
      let over := p - b
      if over ≤ 1/10 * b then 6/10 * (1 - over / (1/10 * b))
      else 5/100

/-- `_mileage_score` (`search.py` lines 70–79). -/
def _mileage_score (mileage : Option ℚ) : ℚ :=
  match mileage with
  | none => 1/2
  | some m =>
    if m ≤ 30000 then 1
    else if m ≤ 90000 then _clamp (1 - (m - 30000) / 60000)
    else if m ≤ 120000 then 2/10
    else 5/100

/-- `_distance_score` (`search.py` lines 82–91); a `none` `max_distance`
defaults to 100. -/
def _distance_score (distance_miles max_distance : Option ℚ) : ℚ :=
  match distance_miles with
  | none => 1/2
  | some d =>
    let md := max_distance.getD 100
    if d ≤ md then 1
    else if d ≤ 2 * md then _clamp (1 - (d - md) / md)
    else 5/100

/-- `_economy_score` (`search.py` lines 94–113): weighted 0.6/0.4 average of
the MPG fields that are present, then a piecewise ramp. -/
def _economy_score (city_mpg highway_mpg : Option ℚ) : ℚ :=
  match city_mpg, highway_mpg with
  | none, none => 1/2
  | c?, h? =>
    let mpgAcc := (match c? with | some c => 6/10 * c | none => 0)
      + (match h? with | some h => 4/10 * h | none => 0)
    let weight : ℚ := (match c? with | some _ => 6/10 | none => 0)
      + (match h? with | some _ => 4/10 | none => 0)
    if weight = 0 then 1/2
    else
      let mpg := mpgAcc / weight
      if mpg ≤ 20 then 2/10
      else if mpg ≥ 35 then 1
      else 2/10 + 8/10 * ((mpg - 20) / 15)

/-- `_safety_score` (`search.py` lines 116–119). -/
def _safety_score (stars : Option ℚ) : ℚ :=
  match stars with
  | none => 1/2
  | some s => _clamp (s / 5)

/-- `ListingWithScore` dataclass (`search.py` lines 31–38). -/
structure ListingWithScore where
  listing : Listing
  breakdown : ScoreBreakdown
deriving DecidableEq, Repr

/-- The `total_score` property (`search.py` lines 36–38). -/
def ListingWithScore.total_score (s : ListingWithScore) : ℚ :=
  s.breakdown.total

/-- `score_listing` (`search.py` lines 122–138). -/
def score_listing (listing : Listing) (criteria : SearchCriteria) :
    ListingWithScore :=
  { listing := listing
    breakdown :=
      { price := _price_score listing.price criteria.budget
        mileage := _mileage_score listing.mileage
        distance := _distance_score listing.distance_miles criteria.max_distance
        economy := _economy_score listing.city_mpg listing.highway_mpg
        safety := _safety_score listing.safety_rating } }

/-! ## `search.py`: filters

`_passes_filters` (`search.py` lines 141–185) is a sequence of independent
checks, each of which either returns `False` or falls through; it is therefore
embedded as the conjunction of one Boolean check per criterion.  A Python
`if criteria.x:` guard is truthiness: the check is skipped when the criterion
is `None` or the empty string (or zero, for numeric criteria tested with
`is not None` the guard is instead an explicit `None` test, mirrored below). -/

/-- Make filter (`search.py` lines 142–146).  Note the source lowercases only
the listing's make, not the criterion. -/
def makeFilterOk (listing : Listing) (criteria : SearchCriteria) : Bool :=
  match criteria.make with
  | none => true
  | some m =>
    if m = "" then true
    else pyContains m (pyLower (listing.make.getD ""))

/-- Budget filter (`search.py` lines 148–155): with a budget set, a listing
with an unknown price is rejected, and a known price is rejected when it
exceeds `budget * 1.15`. -/
def budgetFilterOk (listing : Listing) (criteria : SearchCriteria) : Bool :=
  match criteria.budget with
  | none => true
  | some b =>
    match listing.price with
    | none => false
    | some p => decide (¬ p > b * (115/100))

/-- Body-style filter (`search.py` lines 157–170), including the
`"not X"` negative form. -/
def bodyStyleFilterOk (listing : Listing) (criteria : SearchCriteria) : Bool :=
  match criteria.body_style with
  | none => true
  | some bs =>
    if bs = "" then true
    else
      let body := pyLower (listing.body_style.getD "")
      let cs := pyLower bs
      if isPrefixB "not ".data cs.data then
        let excluded : String := ⟨pyStrip (cs.data.drop 4)⟩
        ! pyContains excluded body
      else
        pyContains cs body

/-- Fuel-type filter (`search.py` lines 172–177). -/
def fuelFilterOk (listing : Listing) (criteria : SearchCriteria) : Bool :=
  match criteria.fuel_type with
  | none => true
  | some f =>
    if f = "" then true
    else pyContains (pyLower f) (pyLower (listing.fuel_type.getD ""))

/-- Distance filter (`search.py` lines 179–183): rejects only a known
distance exceeding `max_distance * 1.5`. -/
def distanceFilterOk (listing : Listing) (criteria : SearchCriteria) : Bool :=
  match criteria.max_distance with
  | none => true
  | some md =>
    match listing.distance_miles with
    | none => true
    | some d => decide (¬ d > md * (15/10))

/-- `_passes_filters` (`search.py` lines 141–185). -/
def _passes_filters (listing : Listing) (criteria : SearchCriteria) : Bool :=
  makeFilterOk listing criteria && budgetFilterOk listing criteria
    && bodyStyleFilterOk listing criteria && fuelFilterOk listing criteria
    && distanceFilterOk listing criteria

/-! ## `search.py`: deduplication, ranking and `search`

The network fetch and the blending-in of the bundled sample listings
(`search.py` lines 193–208) are I/O that merely produce the candidate pool;
the engine below is parameterised by that pool, exactly as the spec's
contract `search(criteria, pool, topK)` describes, and models everything
from the deduplication step (line 212) on. -/

/-- Python truthiness filter on an optional string: `None` and `""` are falsy. -/
def truthyStr (o : Option String) : Option String :=
  o.bind fun s => if s = "" then none else some s

/-- The dedup key `str(item.get("id") or item.get("vin") or id(item))`
(`search.py` line 215).  `none` models the `id(item)` fallback: a fresh
object identity, unique per pool element, which therefore never collides
with any other key. -/
def dedupKey (l : Listing) : Option String :=
  (truthyStr l.id).or (truthyStr l.vin)

/-- The dedup loop of `search` (`search.py` lines 212–219): first occurrence
of each key wins; keyless (object-identity) items are always kept. -/
def dedupGo (seen : List String) : List Listing → List Listing
  | [] => []
  | x :: xs =>
    match dedupKey x with
    | none => x :: dedupGo seen xs
    | some k => if k ∈ seen then dedupGo seen xs else x :: dedupGo (k :: seen) xs

/-- Deduplicated candidate pool (`search.py` lines 211–219). -/
def uniqueCandidates (pool : List Listing) : List Listing := dedupGo [] pool

/-- Filtered and scored candidates (`search.py` lines 222, 226). -/
def scoredCandidates (criteria : SearchCriteria) (pool : List Listing) :
    List ListingWithScore :=
  ((uniqueCandidates pool).filter fun l => _passes_filters l criteria).map
    fun l => score_listing l criteria

/-- The comparison used by `scored.sort(key=lambda s: s.total_score,
reverse=True)`: `a` may precede `b` iff `a.total_score ≥ b.total_score`. -/
def scoredLE (a b : ListingWithScore) : Bool :=
  decide (b.total_score ≤ a.total_score)

/-- The sorted candidate list (`search.py` line 229).  Python's `list.sort`
is a stable sort and `reverse=True` keeps equal-key elements in input order,
so it is modelled by the (stable) `List.mergeSort` under `scoredLE`. -/
def rankedCandidates (criteria : SearchCriteria) (pool : List Listing) :
    List ListingWithScore :=
  (scoredCandidates criteria pool).mergeSort scoredLE

/-- `search` (`search.py` lines 188–238), parameterised by the candidate
pool: dedup, filter, score, stable-sort descending, take the first `top_k`
(`scored[:top_k]`; every caller in the repo passes a nonnegative count). -/
def search (criteria : SearchCriteria) (pool : List Listing)
    (top_k : Nat := 5) : List ListingWithScore :=
  (rankedCandidates criteria pool).take top_k

/-! ## `external_apis.py`: Python value helpers -/

/-- Digit-string to number: `none` models a `ValueError`. -/
def digitsToNat (cs : List Char) : Option Nat :=
  if cs = [] then none
  else if cs.all Char.isDigit then
    some (cs.foldl (fun n c => 10 * n + (c.toNat - 48)) 0)
  else none

/-- Python `int(s)` on a string: strips surrounding whitespace, allows one
leading sign, then decimal digits; `none` models the `ValueError` raised
otherwise (digit-group underscores, unused by this repo's data, are omitted). -/
def pyIntOfString (s : String) : Option Int :=
  match pyStrip s.data with
  | '+' :: rest => (digitsToNat rest).map Int.ofNat
  | '-' :: rest => (digitsToNat rest).map fun n => -(Int.ofNat n)
  | rest => (digitsToNat rest).map Int.ofNat

/-- Round to the nearest integer, ties to even — the rounding Python's
built-in `round` uses. -/
def roundHalfEven (y : ℚ) : ℤ :=
  let f := ⌊y⌋
  if y - f < 1/2 then f
  else if 1/2 < y - f then f + 1
  else if f % 2 = 0 then f else f + 1

/-- Python `round(x, 1)`. -/
def pyRound1 (x : ℚ) : ℚ := (roundHalfEven (10 * x) : ℚ) / 10

/-- Python f-string rendering of a possibly-`None` int. -/
def pyStrOfOptInt : Option Int → String
  | none => "None"
  | some n => toString n

/-- Python f-string rendering of a possibly-`None` string. -/
def pyStrOfOptStr : Option String → String
  | none => "None"
  | some s => s

/-- Python truthiness test (`not x`) on an optional int: `None` and `0`. -/
def intFalsy : Option Int → Bool
  | none => true
  | some n => n == 0

/-- Python truthiness test (`not x`) on an optional string: `None` and `""`. -/
def strFalsy : Option String → Bool
  | none => true
  | some s => s == ""

/-! ## `external_apis.py`: TTL cache (lines 21–39)

The Python cache maps a key to `(timestamp, value)` where the value is any
Python object, possibly `None`; each adapter's keys carry a distinct prefix,
so per-adapter stores are typed separately here with value type `Option β`
(`none` being a stored Python `None`).  `cache_get` returns the stored value
or `None` on a miss — conflating a stored `None` with a miss exactly as the
source does, which is why its result type below is the same `Option β`. -/

/-- One store: key, `storedAt` timestamp, stored value (possibly `None`). -/
abbrev CacheStore (β : Type) := List (String × ℚ × Option β)

/-- `CACHE_TTL = 60 * 60 * 24` (`external_apis.py` line 22). -/
def CACHE_TTL : ℚ := 60 * 60 * 24

/-- `cache_get` (`external_apis.py` lines 25–35): returns the value, and the
store after the lazy eviction of an expired entry.  A miss, an expired entry
and a stored `None` all yield `none`. -/
def cache_get (now : ℚ) (st : CacheStore β) (key : String) :
    Option β × CacheStore β :=
  match st.find? (fun e => e.1 == key) with
  | none => (none, st)
  | some (_, ts, v) =>
    if CACHE_TTL < now - ts then (none, st.filter fun e => e.1 != key)
    else (v, st)

/-- `cache_set` (`external_apis.py` lines 38–39): dict assignment, i.e.
replace any entry under the same key. -/
def cache_set (now : ℚ) (st : CacheStore β) (key : String) (v : Option β) :
    CacheStore β :=
  (key, now, v) :: st.filter fun e => e.1 != key

/-! ## `external_apis.py`: unit conversion (lines 184–192) -/

/-- `l_per_100km_to_mpg` (`external_apis.py` lines 184–192): the guard is the
truthiness test `if not l_per_100km`, so `None` and `0.0` map to `None` and
everything else — negative values included — is converted. -/
def l_per_100km_to_mpg (x : Option ℚ) : Option ℚ :=
  match x with
  | none => none
  | some v => if v = 0 then none else some (pyRound1 (235214/1000 / v))

/-! ## `external_apis.py`: CarQuery trims adapter (lines 128–168) -/

/-- A trim record: a flat JSON object of string fields. -/
structure Trim where
  fields : List (String × String)
deriving DecidableEq, Repr

/-- The parsed body of a CarQuery response: `malformed` models a body on
which `resp.json()` raises; otherwise the optional `"Trims"` value, with
`none` covering both a missing key and a falsy (null/empty) one — the code
collapses those via `data.get("Trims", []) or []`. -/
inductive CarQueryBody
  | malformed
  | json (trims : Option (List Trim))
deriving DecidableEq, Repr

/-- Outcome of the single `requests.get` in `carquery_get_trims`:
`transportError` models the call itself raising (connection failure,
timeout). -/
inductive CarQueryResponse
  | transportError
  | response (status : Nat) (body : CarQueryBody)
deriving DecidableEq, Repr

/-- The cache key `f"carquery_trims:{year}:{make}:{model}"`. -/
def carqueryKey (year : Option Int) (make model : Option String) : String :=
  "carquery_trims:" ++ pyStrOfOptInt year ++ ":" ++ pyStrOfOptStr make
    ++ ":" ++ pyStrOfOptStr model

/-- `carquery_get_trims` (`external_apis.py` lines 128–168), parameterised by
the upstream response.  `.error ()` models an uncaught exception reaching the
caller: only `requests.HTTPError` from `raise_for_status()` (any 4xx/5xx
status) is caught, and 403 is short-circuited before it; a transport error or
a malformed body propagates. -/
def carquery_get_trims (resp : CarQueryResponse) (now : ℚ)
    (st : CacheStore (List Trim)) (year : Option Int)
    (make model : Option String) :
    Except Unit (List Trim) × CacheStore (List Trim) :=
  let key := carqueryKey year make model
  match cache_get now st key with
  | (some trims, st') => (.ok trims, st')
  | (none, st') =>
    match resp with
    | .transportError => (.error (), st')
    | .response status body =>
      if status = 403 then (.ok [], cache_set now st' key (some []))
      else if 400 ≤ status ∧ status ≤ 599 then
        (.ok [], cache_set now st' key (some []))
      else
        match body with
        | .malformed => (.error (), st')
        | .json trims? =>
          let trims := trims?.getD []
          (.ok trims, cache_set now st' key (some trims))

/-! ## `external_apis.py`: NHTSA safety-rating adapter (lines 242–308) -/

/-- Outcome of the first safety request (vehicle-id resolution): `error`
models any exception from `requests.get` or `resp.json()` — these are
swallowed by the function's outer `except`.  Otherwise the HTTP status and
the parsed `"Results"` records, each reduced to its optional `"VehicleId"`. -/
inductive SafetyStep1
  | error
  | ok (status : Nat) (results : List (Option Int))
deriving DecidableEq, Repr

/-- Outcome of the second safety request (rating fetch): its status is never
checked by the code, so only the parsed `"Results"` records matter, each
reduced to its optional `"OverallRating"` string. -/
inductive SafetyStep2
  | error
  | ok (results : List (Option String))
deriving DecidableEq, Repr

/-- The two upstream round-trips `get_safety_rating` may perform. -/
structure SafetyUpstream where
  step1 : SafetyStep1
  step2 : SafetyStep2
deriving DecidableEq, Repr

/-- The cache key `f"nhtsa_safety:{year}:{make}:{model}"`. -/
def safetyKey (year : Option Int) (make model : Option String) : String :=
  "nhtsa_safety:" ++ pyStrOfOptInt year ++ ":" ++ pyStrOfOptStr make
    ++ ":" ++ pyStrOfOptStr model

/-- The body of `get_safety_rating` after the cache check and identity
cleaning (`external_apis.py` lines 258–308): the `try` block performing the
one or two HTTP round-trips, with every completed-request short-circuit
caching its outcome (`None` included) and every exception path (`.error`)
returning `None` without caching. -/
def safetyFetch (up : SafetyUpstream) (now : ℚ) (st : CacheStore Int)
    (key : String) : Option Int × CacheStore Int × Nat :=
  match up.step1 with
  | .error => (none, st, 1)
  | .ok status results =>
    if status ≠ 200 then (none, cache_set now st key none, 1)
    else
      match results.head? with
      | none => (none, cache_set now st key none, 1)
      | some vehicleId? =>
        if vehicleId?.getD 0 = 0 then (none, cache_set now st key none, 1)
        else
          match up.step2 with
          | .error => (none, st, 2)
          | .ok ratingResults =>
            match ratingResults.head? with
            | none => (none, cache_set now st key none, 2)
            | some overall? =>
              let rating := pyIntOfString (overall?.getD "")
              (rating, cache_set now st key rating, 2)

/-- `get_safety_rating` (`external_apis.py` lines 242–308), parameterised by
the upstream responses.  Returns the rating, the updated cache store, and the
number of HTTP requests performed.  Mirrors the source exactly: the cache hit
test is `if cached is not None`; the identity check `if not year or not make
or not model` returns without caching; the rest is `safetyFetch`. -/
def get_safety_rating (up : SafetyUpstream) (now : ℚ) (st : CacheStore Int)
    (year : Option Int) (make model : Option String) :
    Option Int × CacheStore Int × Nat :=
  let key := safetyKey year make model
  match cache_get now st key with
  | (some v, st') => (some v, st', 0)
  | (none, st') =>
    if intFalsy year || strFalsy make || strFalsy model then (none, st', 0)
    else safetyFetch up now st' key

/-! ## `external_apis.py`: profile reconciliation, year precedence
(lines 340–346 of `get_car_profile_from_vin`) -/

/-- The primary (Auto.dev) decode's nested `"vehicle"` object, reduced to the
field the year step reads. -/
structure AutoVehicle where
  year : Option Int := none
deriving DecidableEq, Repr

/-- The primary decode result: `auto_data.get("vehicle", {}) or {}` turns a
missing or falsy `"vehicle"` value into the empty object, modelled by
`none`. -/
structure AutoDevData where
  vehicle : Option AutoVehicle := none
deriving DecidableEq, Repr

/-- The secondary (NHTSA) decode result, reduced to its `"ModelYear"`
string. -/
structure NhtsaData where
  modelYear : Option String := none
deriving DecidableEq, Repr

/-- The year-resolution step of `get_car_profile_from_vin`
(`external_apis.py` lines 340–346): primary's nested vehicle year if present,
else `int(model_year_str) if model_year_str else None`.  `.error ()` models
the uncaught `ValueError` that `int(...)` raises on a truthy, unparsable
string. -/
def resolveYear (auto_data : AutoDevData) (nhtsa_data : NhtsaData) :
    Except Unit (Option Int) :=
  let vehicle := auto_data.vehicle.getD {}
  match vehicle.year with
  | some y => .ok (some y)
  | none =>
    match nhtsa_data.modelYear with
    | none => .ok none
    | some s =>
      if s = "" then .ok none
      else
        match pyIntOfString s with
        | some n => .ok (some n)
        | none => .error ()

/-! ## Helper lemmas -/

theorem _clamp_nonneg (x : ℚ) : 0 ≤ _clamp x := le_max_left 0 _

theorem _clamp_le_one (x : ℚ) : _clamp x ≤ 1 :=
  max_le (by norm_num) (min_le_left 1 x)

theorem _clamp_mono {x y : ℚ} (h : x ≤ y) : _clamp x ≤ _clamp y :=
  max_le_max le_rfl (min_le_min le_rfl h)

theorem isPrefixB_iff : ∀ a b : List Char, isPrefixB a b = true ↔ a <+: b := by
  intro a
  induction a with
  | nil => intro b; simp [isPrefixB]
  | cons x xs ih =>
    intro b
    cases b with
    | nil => simp [isPrefixB]
    | cons y ys =>
      simp [isPrefixB, List.cons_prefix_cons, ih ys, and_comm]

theorem isInfixB_iff (n : List Char) : ∀ h : List Char,
    isInfixB n h = true ↔ n <:+: h := by
  intro h
  induction h with
  | nil => simp [isInfixB, isPrefixB_iff]
  | cons y ys ih =>
    rw [isInfixB]
    simp [isPrefixB_iff, ih, List.infix_cons_iff]

/-- The value and request count produced by `safetyFetch` do not depend on
the incoming cache store (only the outgoing store does). -/
theorem safetyFetch_store_irrelevant (up : SafetyUpstream) (now : ℚ)
    (st st' : CacheStore Int) (key : String) :
    (safetyFetch up now st key).1 = (safetyFetch up now st' key).1 ∧
      (safetyFetch up now st key).2.2 = (safetyFetch up now st' key).2.2 := by
  rcases up with ⟨s1, s2⟩
  cases s1 with
  | error => exact ⟨rfl, rfl⟩
  | ok status results =>
    cases results with
    | nil => simp only [safetyFetch, List.head?_cons, List.head?_nil]; split_ifs <;> exact ⟨rfl, rfl⟩
    | cons r rs =>
      cases s2 with
      | error => simp only [safetyFetch, List.head?_cons, List.head?_nil]; split_ifs <;> exact ⟨rfl, rfl⟩
      | ok rr =>
        cases rr with
        | nil => simp only [safetyFetch, List.head?_cons, List.head?_nil]; split_ifs <;> exact ⟨rfl, rfl⟩
        | cons q qs => simp only [safetyFetch, List.head?_cons, List.head?_nil]; split_ifs <;> exact ⟨rfl, rfl⟩

/-! ## Claim theorems -/

/-- C5 counterexample: the conversion does not return `None` for every
`x ≤ 0` — at `x = -1` (which is `≤ 0`) it returns `round(235.214 / -1, 1) =
-235.2`, because the source's guard `if not l_per_100km` only catches `None`
and `0`. -/
theorem l_per_100km_to_mpg_negative_not_none :
    l_per_100km_to_mpg (some (-1)) = some (-1176/5) ∧
      l_per_100km_to_mpg (some (-1)) ≠ none := by
  have h : l_per_100km_to_mpg (some (-1)) = some (-1176/5) := by
    norm_num [l_per_100km_to_mpg, pyRound1, roundHalfEven]
  exact ⟨h, by rw [h]; simp⟩

/-- C5 amended: `l_per_100km_to_mpg x` is `None` exactly when `x` is `None`
or `0`; any other value — negative included — maps to
`round(235.214 / x, 1)`; in particular `x = 235.214/10` yields exactly
`10.0`. -/
theorem l_per_100km_to_mpg_spec :
    (∀ x : Option ℚ, l_per_100km_to_mpg x = none ↔ (x = none ∨ x = some 0)) ∧
    (∀ v : ℚ, v ≠ 0 →
      l_per_100km_to_mpg (some v) = some (pyRound1 (235214/1000 / v))) ∧
    l_per_100km_to_mpg (some (235214/10000)) = some 10 := by
  refine ⟨fun x => ?_, fun v hv => by simp [l_per_100km_to_mpg, hv],
    by norm_num [l_per_100km_to_mpg, pyRound1, roundHalfEven]⟩
  cases x with
  | none => simp [l_per_100km_to_mpg]
  | some v => by_cases h : v = 0 <;> simp [l_per_100km_to_mpg, h]

/-- C5 amended witness at concrete inputs. -/
theorem l_per_100km_to_mpg_spec_witness :
    l_per_100km_to_mpg (some 0) = none ∧
      l_per_100km_to_mpg (some 2) = some (pyRound1 (235214/1000 / 2)) :=
  ⟨(l_per_100km_to_mpg_spec.1 (some 0)).mpr (Or.inr rfl),
    l_per_100km_to_mpg_spec.2.1 2 (by norm_num)⟩

/-- C2 counterexample: `_mileage_score` is not monotonically non-increasing —
the linear segment reaches `0.1` at 84,000 miles while the flat segment gives
`0.2` at 100,000 miles, so a larger mileage gets a strictly larger score. -/
theorem mileage_score_not_monotone :
    (84000 : ℚ) ≤ 100000 ∧
      _mileage_score (some 84000) < _mileage_score (some 100000) := by
  constructor
  · norm_num
  · norm_num [_mileage_score, _clamp]

/-- C2 amended: `_mileage_score` is non-increasing on each side of the
90,000-mile boundary (both mileages `≤ 90000`, or both `> 90000`), with
`_mileage_score 0 = 1.0` and `_mileage_score 150000 = 0.05`; across that
boundary monotonicity fails (see the counterexample). -/
theorem mileage_score_piecewise_monotone :
    (∀ m1 m2 : ℚ, m1 ≤ m2 → (m2 ≤ 90000 ∨ 90000 < m1) →
      _mileage_score (some m2) ≤ _mileage_score (some m1)) ∧
    _mileage_score (some 0) = 1 ∧ _mileage_score (some 150000) = 5/100 := by
  refine ⟨fun m1 m2 h12 hc => ?_, by norm_num [_mileage_score],
    by norm_num [_mileage_score]⟩
  simp only [_mileage_score]
  rcases hc with hc | hc <;> split_ifs with h1 h2 h3 h4 h5 h6 <;>
    first
      | linarith
      | { apply _clamp_mono; linarith }
      | { refine le_trans (_clamp_le_one _) ?_; norm_num }

/-- C2 amended witness at concrete inputs. -/
theorem mileage_score_piecewise_monotone_witness :
    _mileage_score (some 50000) ≤ _mileage_score (some 40000) ∧
      _mileage_score (some 110000) ≤ _mileage_score (some 100000) ∧
      _mileage_score (some 0) = 1 ∧ _mileage_score (some 150000) = 5/100 :=
  ⟨mileage_score_piecewise_monotone.1 40000 50000 (by norm_num)
      (Or.inl (by norm_num)),
    mileage_score_piecewise_monotone.1 100000 110000 (by norm_num)
      (Or.inr (by norm_num)),
    mileage_score_piecewise_monotone.2.1,
    mileage_score_piecewise_monotone.2.2⟩

/-- C9 counterexample: the make filter is not case-insensitive — the source
lowercases only the listing's make, not the criterion, so criterion
`"Honda"` fails against listing make `"HONDA"` even though the
case-insensitive substring containment holds. -/
theorem make_filter_not_case_insensitive :
    makeFilterOk { make := some "HONDA" } { make := some "Honda" } = false ∧
      pyContains (pyLower "Honda") (pyLower "HONDA") = true := by
  constructor
  · decide
  · decide

/-- C9 amended: with a truthy make criterion `m`, the listing passes the make
filter iff `m`, verbatim, is a substring of the lowercased listing make —
case-insensitive in the listing's make only, not in the criterion. -/
theorem make_filter_verbatim_substring (l : Listing) (c : SearchCriteria)
    (m : String) (hm : c.make = some m) (hne : m ≠ "") :
    makeFilterOk l c = true ↔ m.data <:+: (pyLower (l.make.getD "")).data := by
  simp only [makeFilterOk, hm, if_neg hne]
  exact isInfixB_iff m.data (pyLower (l.make.getD "")).data

/-- C9 amended witness at concrete inputs. -/
theorem make_filter_verbatim_substring_witness :
    makeFilterOk { make := some "HONDA" } { make := some "honda" } = true :=
  (make_filter_verbatim_substring { make := some "HONDA" }
    { make := some "honda" } "honda" rfl (by decide)).mpr (by decide)

/-- C3 counterexample: with a budget criterion set, a candidate with an
unknown price IS excluded by the budget filter (`if price is None: return
False`), contradicting the claim that it is kept and ranked neutrally. -/
theorem budget_filter_excludes_unknown_price :
    budgetFilterOk {} { budget := some 20000 } = false := rfl

/-- C3 amended: with a budget criterion `b`, the budget filter excludes a
candidate iff its price is unknown or its price exceeds `1.15 × b`; the
neutral price sub-score `0.5` for an unknown price applies only to scoring
(reachable when no budget criterion is given). -/
theorem budget_filter_spec :
    (∀ (l : Listing) (c : SearchCriteria) (b : ℚ), c.budget = some b →
      (budgetFilterOk l c = false ↔
        l.price = none ∨ ∃ p, l.price = some p ∧ b * (115/100) < p)) ∧
    ∀ b : Option ℚ, _price_score none b = 1/2 := by
  refine ⟨fun l c b hb => ?_, fun b => by cases b <;> rfl⟩
  cases hp : l.price with
  | none => simp [budgetFilterOk, hb, hp]
  | some p => simp [budgetFilterOk, hb, hp]

/-- C3 amended witness at concrete inputs. -/
theorem budget_filter_spec_witness :
    budgetFilterOk { price := some 25000 } { budget := some 20000 } = false ∧
      _price_score none (some 20000) = 1/2 :=
  ⟨(budget_filter_spec.1 { price := some 25000 } { budget := some 20000 }
      20000 rfl).mpr (Or.inr ⟨25000, rfl, by norm_num⟩),
    budget_filter_spec.2 (some 20000)⟩

/-- C8 counterexample: with no primary year and a truthy but unparsable
secondary model-year string, the resolution raises (`int("N/A")` is an
uncaught `ValueError`) instead of yielding `None`. -/
theorem resolve_year_raises_on_unparsable :
    resolveYear {} { modelYear := some "N/A" } = Except.error () ∧
      resolveYear {} { modelYear := some "N/A" } ≠ Except.ok none :=
  ⟨rfl, fun h => Except.noConfusion h⟩

/-- C8 amended: the resolved year is the primary's nested vehicle-object year
when present (so primary `{year:2020}` beats secondary `{ModelYear:"2019"}`);
otherwise the secondary model-year string is parsed with `int(...)`, giving
`None` when it is falsy (`None` or `""`) but raising `ValueError` — not
`None` — when it is truthy and unparsable. -/
theorem resolve_year_precedence :
    (∀ (a : AutoDevData) (n : NhtsaData) (y : Int),
      (a.vehicle.getD {}).year = some y → resolveYear a n = .ok (some y)) ∧
    (∀ (a : AutoDevData) (s? : Option String),
      (a.vehicle.getD {}).year = none → (s? = none ∨ s? = some "") →
      resolveYear a { modelYear := s? } = .ok none) ∧
    (∀ (a : AutoDevData) (s : String) (k : Int),
      (a.vehicle.getD {}).year = none → s ≠ "" → pyIntOfString s = some k →
      resolveYear a { modelYear := some s } = .ok (some k)) ∧
    (∀ (a : AutoDevData) (s : String),
      (a.vehicle.getD {}).year = none → s ≠ "" → pyIntOfString s = none →
      resolveYear a { modelYear := some s } = .error ()) ∧
    resolveYear { vehicle := some { year := some 2020 } }
      { modelYear := some "2019" } = .ok (some 2020) := by
  refine ⟨fun a n y hy => ?_, fun a s? ha hs => ?_, fun a s k ha hs hp => ?_,
    fun a s ha hs hp => ?_, rfl⟩
  · simp [resolveYear, hy]
  · rcases hs with h | h <;> simp [resolveYear, ha, h]
  · simp [resolveYear, ha, hs, hp]
  · simp [resolveYear, ha, hs, hp]

/-- C8 amended witness at concrete inputs. -/
theorem resolve_year_precedence_witness :
    resolveYear { vehicle := some { year := some 2020 } }
        { modelYear := some "2019" } = .ok (some 2020) ∧
      resolveYear {} { modelYear := some "" } = .ok none ∧
      resolveYear {} { modelYear := some "2019" } = .ok (some 2019) ∧
      resolveYear {} { modelYear := some "N/A" } = .error () :=
  ⟨resolve_year_precedence.2.2.2.2,
    resolve_year_precedence.2.1 {} (some "") rfl (Or.inr rfl),
    resolve_year_precedence.2.2.1 {} "2019" 2019 rfl (by decide) (by decide),
    resolve_year_precedence.2.2.2.1 {} "N/A" rfl (by decide) (by decide)⟩

/-- C10: the TTL cache cannot represent a stored `None` as a hit — `cache_get`
returns `none` identically for an absent key, an expired entry, and an entry
stored with value `None`; consequently `get_safety_rating` (whose cache-hit
guard is `is not None`) returns the same value and performs the same number
of network requests on a cache primed with a stored `None` for its key as on
an empty cache. -/
theorem cache_stored_none_is_miss :
    (∀ (β : Type) (now : ℚ) (key : String),
      (cache_get now ([] : CacheStore β) key).1 = none) ∧
    (∀ (β : Type) (now ts : ℚ) (st : CacheStore β) (key : String)
      (v : Option β), CACHE_TTL < now - ts →
      (cache_get now (cache_set ts st key v) key).1 = none) ∧
    (∀ (β : Type) (now ts : ℚ) (st : CacheStore β) (key : String),
      (cache_get now (cache_set ts st key none) key).1 = none) ∧
    (∀ (up : SafetyUpstream) (now ts : ℚ) (year : Option Int)
      (make model : Option String),
      (get_safety_rating up now
          (cache_set ts [] (safetyKey year make model) none) year make model).1
        = (get_safety_rating up now [] year make model).1 ∧
      (get_safety_rating up now
          (cache_set ts [] (safetyKey year make model) none) year make model).2.2
        = (get_safety_rating up now [] year make model).2.2) := by
  have hset : ∀ (β : Type) (now ts : ℚ) (st : CacheStore β) (key : String)
      (v : Option β), (cache_get now (cache_set ts st key v) key).1 =
        if CACHE_TTL < now - ts then none else v := by
    intro β now ts st key v
    simp only [cache_get, cache_set, List.find?_cons, beq_self_eq_true]
    split_ifs <;> rfl
  refine ⟨fun β now key => rfl, fun β now ts st key v h => ?_,
    fun β now ts st key => ?_, fun up now ts year make model => ?_⟩
  · rw [hset, if_pos h]
  · rw [hset]; split_ifs <;> rfl
  · have hmiss : (cache_get now
        (cache_set ts ([] : CacheStore Int) (safetyKey year make model) none)
        (safetyKey year make model)).1 = none := by
      rw [hset]; split_ifs <;> rfl
    have hempty : (cache_get now ([] : CacheStore Int)
        (safetyKey year make model)).1 = none := rfl
    simp only [get_safety_rating]
    rcases hp : cache_get now
        (cache_set ts ([] : CacheStore Int) (safetyKey year make model) none)
        (safetyKey year make model) with ⟨v1, st1⟩
    rcases hq : cache_get now ([] : CacheStore Int)
        (safetyKey year make model) with ⟨v2, st2⟩
    have hv1 : v1 = none := by rw [hp] at hmiss; exact hmiss
    have hv2 : v2 = none := by rw [hq] at hempty; exact hempty
    subst hv1; subst hv2
    simp only
    split_ifs
    · exact ⟨rfl, rfl⟩
    · exact safetyFetch_store_irrelevant up now st1 st2 (safetyKey year make model)

/-- Helper: reading back a freshly-set key before its TTL elapses returns the
stored value (which for a stored `None` is indistinguishable from a miss). -/
theorem cache_get_set_fresh (β : Type) (now ts : ℚ) (st : CacheStore β)
    (key : String) (v : Option β) (h : ¬ CACHE_TTL < now - ts) :
    cache_get now (cache_set ts st key v) key = (v, cache_set ts st key v) := by
  simp only [cache_get, cache_set, List.find?_cons, beq_self_eq_true]
  simp [h]

/-- C4: the `None` outcome of a failed safety lookup is written to the cache
but cannot be served from it — with the upstream returning HTTP 200 and zero
results for `{year: 2022, make: "Honda Civic", model: "Civic"}`, the first
call returns `None` after 1 request and stores `None`, yet a second call
within the TTL still performs 1 network request (not 0), because `cache_get`
returns `None` for the stored `None` and the guard `if cached is not None`
treats that as a miss. -/
theorem safety_cached_none_still_refetches :
    (get_safety_rating ⟨.ok 200 [], .error⟩ 0 [] (some 2022)
        (some "Honda Civic") (some "Civic")).1 = none ∧
    (get_safety_rating ⟨.ok 200 [], .error⟩ 0 [] (some 2022)
        (some "Honda Civic") (some "Civic")).2.2 = 1 ∧
    (get_safety_rating ⟨.ok 200 [], .error⟩ 100
        (get_safety_rating ⟨.ok 200 [], .error⟩ 0 [] (some 2022)
          (some "Honda Civic") (some "Civic")).2.1
        (some 2022) (some "Honda Civic") (some "Civic")).1 = none ∧
    (get_safety_rating ⟨.ok 200 [], .error⟩ 100
        (get_safety_rating ⟨.ok 200 [], .error⟩ 0 [] (some 2022)
          (some "Honda Civic") (some "Civic")).2.1
        (some 2022) (some "Honda Civic") (some "Civic")).2.2 = 1 := by
  have hfirst : get_safety_rating ⟨.ok 200 [], .error⟩ 0 [] (some 2022)
      (some "Honda Civic") (some "Civic") =
      (none, cache_set 0 []
        (safetyKey (some 2022) (some "Honda Civic") (some "Civic")) none, 1) :=
    rfl
  have hget : cache_get 100
      (cache_set 0 [] (safetyKey (some 2022) (some "Honda Civic")
        (some "Civic")) none)
      (safetyKey (some 2022) (some "Honda Civic") (some "Civic")) =
      (none, cache_set 0 []
        (safetyKey (some 2022) (some "Honda Civic") (some "Civic")) none) :=
    cache_get_set_fresh Int 100 0 []
      (safetyKey (some 2022) (some "Honda Civic") (some "Civic")) none
      (by norm_num [CACHE_TTL])
  have hsecond : get_safety_rating ⟨.ok 200 [], .error⟩ 100
      (cache_set 0 [] (safetyKey (some 2022) (some "Honda Civic")
        (some "Civic")) none)
      (some 2022) (some "Honda Civic") (some "Civic") =
      (none, cache_set 100
        (cache_set 0 [] (safetyKey (some 2022) (some "Honda Civic")
          (some "Civic")) none)
        (safetyKey (some 2022) (some "Honda Civic") (some "Civic")) none, 1) := by
    rw [get_safety_rating, hget]
    rfl
  refine ⟨?_, ?_, ?_, ?_⟩ <;> simp [hfirst, hsecond]

/-- C7 counterexample: a transport error (e.g. a connection failure) in the
CarQuery request propagates as an exception instead of producing an empty
list — only `requests.HTTPError` raised by `raise_for_status()` is caught. -/
theorem carquery_transport_error_raises :
    (carquery_get_trims .transportError 0 [] (some 2015) (some "Honda")
      (some "Civic")).1 = .error () := rfl

/-- C7 amended: on a cache miss, `carquery_get_trims` returns `[]` without
raising for HTTP 403 and for every other HTTP error status (400–599, caught
via `raise_for_status`); but a transport error, or a malformed response body
on a non-error status, raises instead of returning `[]`. -/
theorem carquery_error_status_spec (now : ℚ) (st : CacheStore (List Trim))
    (year : Option Int) (make model : Option String) (status : Nat)
    (body : CarQueryBody)
    (hmiss : (cache_get now st (carqueryKey year make model)).1 = none) :
    (status = 403 ∨ 400 ≤ status ∧ status ≤ 599 →
      (carquery_get_trims (.response status body) now st year make model).1
        = .ok []) ∧
    (carquery_get_trims .transportError now st year make model).1
      = .error () ∧
    (status ≠ 403 → ¬ (400 ≤ status ∧ status ≤ 599) →
      (carquery_get_trims (.response status .malformed) now st year make
        model).1 = .error ()) := by
  rcases hp : cache_get now st (carqueryKey year make model) with ⟨v, st'⟩
  have hv : v = none := by rw [hp] at hmiss; exact hmiss
  subst hv
  refine ⟨fun hs => ?_, ?_, fun h1 h2 => ?_⟩
  · rcases hs with h | h
    · simp [carquery_get_trims, hp, h]
    · by_cases h403 : status = 403
      · simp [carquery_get_trims, hp, h403]
      · simp [carquery_get_trims, hp, h403, h]
  · simp [carquery_get_trims, hp]
  · simp [carquery_get_trims, hp, h1, h2]

/-- C7 amended witness at concrete inputs. -/
theorem carquery_error_status_spec_witness :
    (carquery_get_trims (.response 500 (.json none)) 0 [] (some 2015)
      (some "Honda") (some "Civic")).1 = .ok [] ∧
    (carquery_get_trims (.response 200 .malformed) 0 [] (some 2015)
      (some "Honda") (some "Civic")).1 = .error () :=
  ⟨(carquery_error_status_spec 0 [] (some 2015) (some "Honda") (some "Civic")
      500 (.json none) rfl).1 (Or.inr ⟨by norm_num, by norm_num⟩),
    (carquery_error_status_spec 0 [] (some 2015) (some "Honda") (some "Civic")
      200 (.json none) rfl).2.2 (by norm_num) (by norm_num)⟩

/-- Helper: bounds of the price sub-score under a nonnegative price. -/
theorem price_score_mem (price budget : Option ℚ) (hp : 0 ≤ price.getD 0) :
    0 ≤ _price_score price budget ∧ _price_score price budget ≤ 1 := by
  cases price with
  | none => norm_num [_price_score]
  | some p =>
    have hp0 : 0 ≤ p := by simpa using hp
    cases budget with
    | none => norm_num [_price_score]
    | some b =>
      simp only [_price_score]
      split_ifs with h1 h2 h3
      · norm_num
      · push_neg at h2
        have hb : 0 < 7/10 * b := lt_of_le_of_lt hp0 h2
        have hr0 : 0 ≤ p / (7/10 * b) := div_nonneg hp0 (le_of_lt hb)
        have hr1 : p / (7/10 * b) < 1 := (div_lt_one hb).mpr h2
        constructor <;> linarith
      · push_neg at h1
        have hover : 0 < p - b := by linarith
        have hb : 0 < 1/10 * b := lt_of_lt_of_le hover h3
        have hr0 : 0 < (p - b) / (1/10 * b) := div_pos hover hb
        have hr1 : (p - b) / (1/10 * b) ≤ 1 := (div_le_one hb).mpr h3
        constructor <;> linarith
      · norm_num

/-- Helper: the mileage sub-score always lies in the unit interval. -/
theorem mileage_score_mem (m : Option ℚ) :
    0 ≤ _mileage_score m ∧ _mileage_score m ≤ 1 := by
  cases m with
  | none => norm_num [_mileage_score]
  | some v =>
    simp only [_mileage_score]
    split_ifs
    · norm_num
    · exact ⟨_clamp_nonneg _, _clamp_le_one _⟩
    · norm_num
    · norm_num

/-- Helper: the distance sub-score always lies in the unit interval. -/
theorem distance_score_mem (d md : Option ℚ) :
    0 ≤ _distance_score d md ∧ _distance_score d md ≤ 1 := by
  cases d with
  | none => norm_num [_distance_score]
  | some dv =>
    simp only [_distance_score]
    split_ifs
    · norm_num
    · exact ⟨_clamp_nonneg _, _clamp_le_one _⟩
    · norm_num

/-- Helper: the MPG ramp used by the economy sub-score stays in the unit
interval. -/
theorem economy_ramp_mem (x : ℚ) :
    0 ≤ (if x ≤ 20 then (2:ℚ)/10 else if x ≥ 35 then 1
          else 2/10 + 8/10 * ((x - 20) / 15)) ∧
      (if x ≤ 20 then (2:ℚ)/10 else if x ≥ 35 then 1
          else 2/10 + 8/10 * ((x - 20) / 15)) ≤ 1 := by
  split_ifs with h1 h2
  · norm_num
  · norm_num
  · push_neg at h1 h2
    constructor <;> linarith

/-- Helper: the economy sub-score always lies in the unit interval. -/
theorem economy_score_mem (c? h? : Option ℚ) :
    0 ≤ _economy_score c? h? ∧ _economy_score c? h? ≤ 1 := by
  cases c? with
  | none =>
    cases h? with
    | none => norm_num [_economy_score]
    | some hv =>
      simp only [_economy_score]
      have hw : ((0:ℚ) + 4/10) ≠ 0 := by norm_num
      simp only [if_neg hw]
      exact economy_ramp_mem _
  | some cv =>
    cases h? with
    | none =>
      simp only [_economy_score]
      have hw : ((6:ℚ)/10 + 0) ≠ 0 := by norm_num
      simp only [if_neg hw]
      exact economy_ramp_mem _
    | some hv =>
      simp only [_economy_score]
      have hw : ((6:ℚ)/10 + 4/10) ≠ 0 := by norm_num
      simp only [if_neg hw]
      exact economy_ramp_mem _

/-- Helper: the safety sub-score always lies in the unit interval. -/
theorem safety_score_mem (s : Option ℚ) :
    0 ≤ _safety_score s ∧ _safety_score s ≤ 1 := by
  cases s with
  | none => norm_num [_safety_score]
  | some v => exact ⟨_clamp_nonneg _, _clamp_le_one _⟩

/-- C6 counterexample: a listing with a negative price (nothing in the code
rules one out) gets a price sub-score below 0 — and even a negative total —
via the ramp `0.6 + 0.4 · price/(0.7·budget)`, so the claimed unconditional
`[0,1]` invariant fails. -/
theorem negative_price_escapes_unit_interval :
    (score_listing { price := some (-1000) }
        { budget := some 100 }).breakdown.price < 0 ∧
      (score_listing { price := some (-1000) }
        { budget := some 100 }).breakdown.total < 0 := by
  constructor <;>
    norm_num [score_listing, ScoreBreakdown.total, _price_score,
      _mileage_score, _distance_score, _economy_score, _safety_score]

/-- C6 amended: provided the listing's price, when present, is nonnegative
(true of every real listing), all five sub-scores computed by `score_listing`
lie in `[0,1]`, and the derived total — the fixed convex combination
`0.30·price + 0.25·mileage + 0.15·distance + 0.20·economy + 0.10·safety` —
lies in `[0,1]`. -/
theorem score_breakdown_unit_interval (l : Listing) (c : SearchCriteria)
    (hp : 0 ≤ l.price.getD 0) :
    (0 ≤ (score_listing l c).breakdown.price ∧
      (score_listing l c).breakdown.price ≤ 1) ∧
    (0 ≤ (score_listing l c).breakdown.mileage ∧
      (score_listing l c).breakdown.mileage ≤ 1) ∧
    (0 ≤ (score_listing l c).breakdown.distance ∧
      (score_listing l c).breakdown.distance ≤ 1) ∧
    (0 ≤ (score_listing l c).breakdown.economy ∧
      (score_listing l c).breakdown.economy ≤ 1) ∧
    (0 ≤ (score_listing l c).breakdown.safety ∧
      (score_listing l c).breakdown.safety ≤ 1) ∧
    (0 ≤ (score_listing l c).breakdown.total ∧
      (score_listing l c).breakdown.total ≤ 1) := by
  have h1 := price_score_mem l.price c.budget hp
  have h2 := mileage_score_mem l.mileage
  have h3 := distance_score_mem l.distance_miles c.max_distance
  have h4 := economy_score_mem l.city_mpg l.highway_mpg
  have h5 := safety_score_mem l.safety_rating
  simp only [score_listing, ScoreBreakdown.total]
  exact ⟨h1, h2, h3, h4, h5,
    by linarith [h1.1, h2.1, h3.1, h4.1, h5.1],
    by linarith [h1.2, h2.2, h3.2, h4.2, h5.2]⟩

/-- C6 amended witness at concrete inputs. -/
theorem score_breakdown_unit_interval_witness :
    0 ≤ (score_listing { price := some 22000, mileage := some 40000 }
        { budget := some 25000 }).breakdown.total ∧
      (score_listing { price := some 22000, mileage := some 40000 }
        { budget := some 25000 }).breakdown.total ≤ 1 :=
  (score_breakdown_unit_interval
    { price := some 22000, mileage := some 40000 } { budget := some 25000 }
    (by norm_num [Option.getD])).2.2.2.2.2

/-- Helper: `scoredLE` is transitive. -/
theorem scoredLE_trans (a b c : ListingWithScore) :
    scoredLE a b → scoredLE b c → scoredLE a c := by
  simp only [scoredLE, decide_eq_true_eq]
  intro hab hbc
  exact le_trans hbc hab

/-- Helper: `scoredLE` is total. -/
theorem scoredLE_total (a b : ListingWithScore) :
    scoredLE a b || scoredLE b a := by
  simp only [scoredLE, Bool.or_eq_true, decide_eq_true_eq]
  exact (le_total b.total_score a.total_score)

/-- C1: for every criteria, pool and `top_k`, `search` returns at most
`top_k` scored listings, the returned list is sorted by `total_score` in
non-strictly descending order, and the sort is stable: two scored candidates
with equal totals appearing in a given relative order in the (input-ordered)
scored pool appear in that same relative order in the ranked list, of which
the returned list is the `top_k`-prefix. -/
theorem search_returns_topk_sorted_stable (criteria : SearchCriteria)
    (pool : List Listing) (top_k : Nat) :
    (search criteria pool top_k).length ≤ top_k ∧
    (search criteria pool top_k).Pairwise
      (fun a b => b.total_score ≤ a.total_score) ∧
    ∀ a b : ListingWithScore,
      List.Sublist [a, b] (scoredCandidates criteria pool) →
      a.total_score = b.total_score →
      List.Sublist [a, b] (rankedCandidates criteria pool) := by
  refine ⟨List.length_take_le _ _, ?_, fun a b hsub heq => ?_⟩
  · have hs := List.sorted_mergeSort
      scoredLE_trans scoredLE_total (scoredCandidates criteria pool)
    have hsub : List.Sublist (search criteria pool top_k)
        (rankedCandidates criteria pool) :=
      List.take_sublist _ _
    exact (List.Pairwise.sublist hsub hs).imp fun h => by
      simpa [scoredLE, decide_eq_true_eq] using h
  · exact List.pair_sublist_mergeSort scoredLE_trans scoredLE_total
      (decide_eq_true (le_of_eq heq.symm)) hsub

/-- C1 witness at concrete inputs: a two-listing pool with equal totals. -/
theorem search_returns_topk_witness :
    (search {} [{ id := some "a" }, { id := some "b" }] 5).length ≤ 5 ∧
    List.Sublist
      [score_listing { id := some "a" } {}, score_listing { id := some "b" } {}]
      (rankedCandidates {} [{ id := some "a" }, { id := some "b" }]) := by
  have h := search_returns_topk_sorted_stable {}
    [{ id := some "a" }, { id := some "b" }] 5
  refine ⟨h.1, h.2.2 _ _ ?_ rfl⟩
  show List.Sublist
    [score_listing { id := some "a" } {}, score_listing { id := some "b" } {}]
    [score_listing { id := some "a" } {}, score_listing { id := some "b" } {}]
  exact List.Sublist.refl _

/-- C10 witness at concrete inputs. -/
theorem cache_stored_none_is_miss_witness :
    (cache_get 0 ([] : CacheStore Int) "k").1 = none ∧
      (cache_get 100000 (cache_set 0 ([] : CacheStore Int) "k" (some 5)) "k").1
        = none ∧
      (cache_get 10 (cache_set 0 ([] : CacheStore Int) "k" none) "k").1 = none :=
  ⟨cache_stored_none_is_miss.1 Int 0 "k",
    cache_stored_none_is_miss.2.1 Int 100000 0 [] "k" (some 5)
      (by norm_num [CACHE_TTL]),
    cache_stored_none_is_miss.2.2.1 Int 10 0 [] "k"⟩

end CarWise
